import Mathlib

/-!
Shallow embedding of the booking/session coordination core of the
COMP4050BAMBrazil api-server (Rust, axum + sqlx), for verification of its
specification.

Conventions of the embedding:
* `Uuid` values are modelled as `Nat` identifiers; `NaiveDate` values are
  modelled as `Nat` day indices (handlers receive the already-parsed date:
  the `%Y-%m-%d` string parse, which rejects ill-formed dates with
  `BadRequest` before any business logic, is outside the claims considered).
* Rust `i32` slot bounds are modelled as `Int`; SQL comparisons on them are
  pure integer comparisons.
* Timestamps (`created_at`, `updated_at`, `started_at`, `ended_at`) are
  modelled as `Nat` where behaviour depends on them and omitted where no
  operation reads them (`Booking.created_at`, user timestamps).
* The Postgres store is modelled as in-memory lists inside `DBState`; each
  `DatabaseService` method of `services/database.rs` becomes a pure function
  on `DBState`, with `Option`/pairs standing for `Result` rows and the
  returned updated state.  SQL `ORDER BY` clauses are reproduced where the
  order is observable (`list_sessions`, `get_active_session_by_user`) and
  dropped where only membership or a unique-id lookup is observable
  (`get_bookings_by_user`).
* Each axum handler becomes a function from the pre-state (plus the
  authenticated `Claims` and the request) to the produced
  `Result<Json<ApiResponse<T>>, AppError>` value paired with the post-state.
-/

namespace BAM

/-- `UserRole` from `models/mod.rs`. -/
inductive UserRole where
  | Student
  | Teacher
  | Admin
deriving DecidableEq, Repr

/-- `BookingStatus` from `models/mod.rs`. -/
inductive BookingStatus where
  | Pending
  | Approved
  | Rejected
deriving DecidableEq, Repr

/-- `SessionStatus` from `models/mod.rs`. -/
inductive SessionStatus where
  | Active
  | Completed
  | Aborted
deriving DecidableEq, Repr

/-- `UserWithPassword` from `services/database.rs` (timestamps omitted:
no modelled operation reads them). -/
structure UserWithPassword where
  id : Nat
  name : String
  email : String
  password_hash : String
  role : UserRole
deriving DecidableEq, Repr

/-- `User` from `models/mod.rs` (timestamps omitted). -/
structure User where
  id : Nat
  name : String
  email : String
  role : UserRole
deriving DecidableEq, Repr

/-- The projection performed at the end of `authenticate_user` and by the
`get_user_by_id` row mapping: drop the password hash. -/
def toUser (u : UserWithPassword) : User :=
  { id := u.id, name := u.name, email := u.email, role := u.role }

/-- `Booking` from `models/mod.rs` (`created_at` omitted: never read). -/
structure Booking where
  id : Nat
  microscope_id : String
  date : Nat
  slot_start : Int
  slot_end : Int
  title : String
  group_name : Option String
  attendees : Option Int
  requester_id : Nat
  requester_name : String
  status : BookingStatus
  approved_by : Option Nat
deriving DecidableEq, Repr

/-- `Session` from `models/mod.rs`. -/
structure Session where
  id : Nat
  user_id : Nat
  booking_id : Option Nat
  microscope_id : String
  status : SessionStatus
  started_at : Nat
  ended_at : Option Nat
  notes : Option String
deriving DecidableEq, Repr

/-- The durable store: the `users`, `bookings` and `sessions` tables. -/
structure DBState where
  users : List UserWithPassword
  bookings : List Booking
  sessions : List Session
deriving DecidableEq, Repr

/-- `DatabaseService::get_user_by_email`:
`SELECT ... FROM users WHERE email = $1` (`fetch_optional`). -/
def get_user_by_email (st : DBState) (email : String) : Option UserWithPassword :=
  st.users.find? (fun u => u.email == email)

/-- `DatabaseService::get_user_by_id`:
`SELECT id, name, email, role, ... FROM users WHERE id = $1`. -/
def get_user_by_id (st : DBState) (user_id : Nat) : Option User :=
  (st.users.find? (fun u => u.id == user_id)).map toUser

/-- `DatabaseService::create_booking`: `INSERT INTO bookings ... RETURNING ...`. -/
def db_create_booking (st : DBState) (booking : Booking) : Booking × DBState :=
  (booking, { st with bookings := st.bookings ++ [booking] })

/-- The row predicate of `DatabaseService::check_booking_conflicts`:
`microscope_id = $1 AND date = $2 AND status IN ('Pending','Approved')
 AND (id != $5 when an exclusion is given)
 AND NOT (slot_end <= $3 OR slot_start >= $4)`. -/
def conflictsWith (microscope_id : String) (date : Nat) (slot_start slot_end : Int)
    (exclude_booking_id : Option Nat) (b : Booking) : Bool :=
  b.microscope_id == microscope_id && b.date == date
    && (b.status == BookingStatus.Pending || b.status == BookingStatus.Approved)
    && (match exclude_booking_id with
        | some exclude_id => b.id != exclude_id
        | none => true)
    && !(decide (b.slot_end ≤ slot_start) || decide (b.slot_start ≥ slot_end))

/-- `DatabaseService::check_booking_conflicts`: `SELECT COUNT(*) ...` over the
predicate above, returning `count > 0`. -/
def check_booking_conflicts (st : DBState) (microscope_id : String) (date : Nat)
    (slot_start slot_end : Int) (exclude_booking_id : Option Nat) : Bool :=
  decide (0 < st.bookings.countP
    (conflictsWith microscope_id date slot_start slot_end exclude_booking_id))

/-- `DatabaseService::create_session`: `INSERT INTO sessions ... RETURNING ...`. -/
def db_create_session (st : DBState) (session : Session) : Session × DBState :=
  (session, { st with sessions := st.sessions ++ [session] })

/-- The accumulator of `ORDER BY started_at DESC LIMIT 1`: keep the row with
the latest `started_at` seen so far. -/
def pickLatest (acc : Option Session) (s : Session) : Option Session :=
  match acc with
  | none => some s
  | some t => if t.started_at < s.started_at then some s else some t

/-- `DatabaseService::get_active_session_by_user`:
`SELECT ... FROM sessions WHERE user_id = $1 AND status = 'Active'
 ORDER BY started_at DESC LIMIT 1` (`fetch_optional`). -/
def get_active_session_by_user (st : DBState) (user_id : Nat) : Option Session :=
  (st.sessions.filter
      (fun s => s.user_id == user_id && s.status == SessionStatus.Active)).foldl
    pickLatest none

/-- The row update of `DatabaseService::end_session`:
`SET status = 'Completed', ended_at = NOW(), notes = COALESCE($2, notes)`. -/
def applyEndSession (now : Nat) (notes : Option String) (s : Session) : Session :=
  { s with
    status := SessionStatus.Completed
    ended_at := some now
    notes := match notes with
             | some n => some n
             | none => s.notes }

/-- `DatabaseService::end_session`:
`UPDATE sessions SET status = 'Completed', ended_at = NOW(),
 notes = COALESCE($2, notes) WHERE id = $1 RETURNING ...` with `fetch_one`;
`none` models the `RowNotFound` database error when no row matches. -/
def db_end_session (st : DBState) (now : Nat) (session_id : Nat)
    (notes : Option String) : Option (Session × DBState) :=
  match st.sessions.find? (fun s => s.id == session_id) with
  | none => none
  | some s =>
      some (applyEndSession now notes s,
        { st with sessions := st.sessions.map fun t =>
            if t.id == session_id then applyEndSession now notes t else t })

/-- `DatabaseService::get_session_by_id`:
`SELECT ... FROM sessions WHERE id = $1` (`fetch_optional`). -/
def get_session_by_id (st : DBState) (session_id : Nat) : Option Session :=
  st.sessions.find? (fun s => s.id == session_id)

/-- `DatabaseService::get_booking_by_id`:
`SELECT ... FROM bookings WHERE id = $1` (`fetch_optional`). -/
def get_booking_by_id (st : DBState) (booking_id : Nat) : Option Booking :=
  st.bookings.find? (fun b => b.id == booking_id)

/-- `DatabaseService::get_bookings_by_user`:
`SELECT ... FROM bookings WHERE requester_id = $1`.  The `ORDER BY date DESC,
slot_start DESC` clause is dropped: the callers only test membership or look
up a unique id in the returned list. -/
def get_bookings_by_user (st : DBState) (user_id : Nat) : List Booking :=
  st.bookings.filter (fun b => b.requester_id == user_id)

/-- Insertion step for `ORDER BY started_at DESC`. -/
def insertByStartedAtDesc (s : Session) : List Session → List Session
  | [] => [s]
  | t :: ts =>
      if s.started_at ≤ t.started_at then t :: insertByStartedAtDesc s ts
      else s :: t :: ts

/-- `ORDER BY started_at DESC` over a list of session rows. -/
def sortByStartedAtDesc : List Session → List Session
  | [] => []
  | s :: ss => insertByStartedAtDesc s (sortByStartedAtDesc ss)

/-- The row predicate assembled by `DatabaseService::list_sessions` out of the
optional `microscope_id`, `user_id`, `status` conditions and the
`active_only` shortcut. -/
def sessionMatches (microscope_id : Option String) (user_id : Option Nat)
    (status : Option SessionStatus) (active_only : Bool) (s : Session) : Bool :=
  (match microscope_id with
   | some mid => s.microscope_id == mid
   | none => true)
  && (match user_id with
      | some uid => s.user_id == uid
      | none => true)
  && (match status with
      | some st0 => s.status == st0
      | none => true)
  && (!active_only || s.status == SessionStatus.Active)

/-- `DatabaseService::list_sessions`: dynamic `SELECT ... WHERE 1=1 [AND ...]
ORDER BY started_at DESC LIMIT $n OFFSET $m`. -/
def db_list_sessions (st : DBState) (microscope_id : Option String)
    (user_id : Option Nat) (status : Option SessionStatus) (active_only : Bool)
    (limit offset : Nat) : List Session :=
  ((sortByStartedAtDesc
      (st.sessions.filter (sessionMatches microscope_id user_id status active_only))).drop
    offset).take limit

/-- `DatabaseService::delete_booking`: `DELETE FROM bookings WHERE id = $1`,
returning `rows_affected` and the new state. -/
def db_delete_booking (st : DBState) (booking_id : Nat) : Nat × DBState :=
  (st.bookings.countP (fun b => b.id == booking_id),
   { st with bookings := st.bookings.filter (fun b => !(b.id == booking_id)) })

/-- `DatabaseService::get_booking_owner`:
`SELECT requester_id FROM bookings WHERE id = $1`. -/
def get_booking_owner (st : DBState) (booking_id : Nat) : Option Nat :=
  (st.bookings.find? (fun b => b.id == booking_id)).map (fun b => b.requester_id)

/-- `DatabaseService::delete_booking_by_owner`:
`DELETE FROM bookings WHERE id = $1 AND requester_id = $2` with a nullable
`$2` (SQL `= NULL` matches no row). -/
def db_delete_booking_by_owner (st : DBState) (booking_id : Nat)
    (user_id : Option Nat) : Nat × DBState :=
  match user_id with
  | none => (0, st)
  | some uid =>
      (st.bookings.countP (fun b => b.id == booking_id && b.requester_id == uid),
       { st with bookings := st.bookings.filter fun b =>
           !(b.id == booking_id && b.requester_id == uid) })

/-- The row update of `DatabaseService::update_booking_status`:
`SET status = $2, approved_by = $3`. -/
def applyBookingStatus (status : BookingStatus) (approved_by : Option Nat)
    (b : Booking) : Booking :=
  { b with status := status, approved_by := approved_by }

/-- `DatabaseService::update_booking_status`:
`UPDATE bookings SET status = $2, approved_by = $3 WHERE id = $1
 RETURNING ...` with `fetch_one`; `none` models `RowNotFound`. -/
def update_booking_status (st : DBState) (booking_id : Nat)
    (status : BookingStatus) (approved_by : Option Nat) : Option (Booking × DBState) :=
  match st.bookings.find? (fun b => b.id == booking_id) with
  | none => none
  | some b =>
      some (applyBookingStatus status approved_by b,
        { st with bookings := st.bookings.map fun t =>
            if t.id == booking_id then applyBookingStatus status approved_by t else t })

/-- `ApiResponse<T>` from `models/mod.rs`. -/
structure ApiResponse (T : Type) where
  success : Bool
  data : Option T
  message : Option String
  error : Option String
deriving DecidableEq, Repr

/-- `ApiResponse::success(data)` (named `mkSuccess`: `success` is taken by the
field of the same name). -/
def ApiResponse.mkSuccess {T : Type} (data : T) : ApiResponse T :=
  { success := true, data := some data, message := none, error := none }

/-- `ApiResponse::error(error)` (named `mkError`: `error` is taken by the
field of the same name). -/
def ApiResponse.mkError {T : Type} (error : String) : ApiResponse T :=
  { success := false, data := none, message := none, error := some error }

/-- The variants of `AppError` (`error.rs`) reachable from the modelled
handlers.  `Database` stands for `AppError::Database(sqlx::Error)`. -/
inductive AppError where
  | Database (msg : String)
  | Authentication (msg : String)
  | Authorization (msg : String)
  | Validation (msg : String)
  | NotFound (msg : String)
  | Conflict (msg : String)
  | BadRequest (msg : String)
deriving DecidableEq, Repr

/-- `Claims` from `middleware/auth.rs`.  The Uuid-string subject `sub` is
modelled as the user id itself (issuance writes `user_id.to_string()` and
validation parses it back; the round trip is the identity). -/
structure Claims where
  sub : Nat
  user_id : Nat
  role : UserRole
  session_id : Option Nat
  exp : Nat
  iat : Nat
deriving DecidableEq, Repr

/-- A signed JWT, abstracted: the payload together with the secret it was
signed with.  Signature verification succeeds exactly when the validator's
secret equals the signing secret. -/
structure Token where
  claims : Claims
  secret : String
deriving DecidableEq, Repr

/-- Errors of `jsonwebtoken::decode` observable through
`validate_jwt_token`. -/
inductive JwtError where
  | InvalidSignature
  | ExpiredSignature
deriving DecidableEq, Repr

/-- The `leeway` field of the external `jsonwebtoken` crate's
`Validation::default()`, applied to the `exp` check: 60 seconds in every
released version of the crate.  `middleware/auth.rs` passes this default
unchanged. -/
def jwtDefaultLeeway : Nat := 60

/-- `generate_jwt_token` from `middleware/auth.rs`: claims with
`sub = user_id`, `exp = now + expiry`, `iat = now`, signed with `secret`.
`now` (the system clock read) is a parameter. -/
def generate_jwt_token (user_id : Nat) (role : UserRole) (session_id : Option Nat)
    (secret : String) (expiry : Nat) (now : Nat) : Token :=
  { claims := { sub := user_id, user_id := user_id, role := role,
                session_id := session_id, exp := now + expiry, iat := now },
    secret := secret }

/-- `validate_jwt_token` from `middleware/auth.rs`: `jsonwebtoken::decode`
with `Validation::default()` — signature check, then the expiry check
`exp < now - leeway` with the crate's default 60-second leeway — followed by
parsing `sub` into `user_id`. -/
def validate_jwt_token (token : Token) (secret : String) (now : Nat) :
    Except JwtError Claims :=
  if token.secret ≠ secret then Except.error JwtError.InvalidSignature
  else if token.claims.exp < now - jwtDefaultLeeway then
    Except.error JwtError.ExpiredSignature
  else Except.ok { token.claims with user_id := token.claims.sub }

/-- `AuthError` from `handlers/auth.rs`. -/
inductive AuthError where
  | InvalidCredentials
  | UserNotFound
  | DatabaseError
  | HashError
deriving DecidableEq, Repr

/-- The hard-coded `FALLBACKS` array inside `authenticate_user`
(`handlers/auth.rs`). -/
def FALLBACKS : List (String × String) :=
  [("admin@bam.edu", "admin123"),
   ("teacher@bam.edu", "teacher123"),
   ("student@bam.edu", "student123")]

/-- `authenticate_user` from `handlers/auth.rs`.  The bcrypt check
`verify_password` is an external computation and is passed in as an oracle
`verify : password → stored hash → Result<bool>`; every other step follows
the source: database lookup, bcrypt verification, the hard-coded fallback
list consulted only when verification returned `false`. -/
def authenticate_user (verify : String → String → Except AuthError Bool)
    (st : DBState) (email password : String) : Except AuthError User :=
  match get_user_by_email st email with
  | none => Except.error AuthError.UserNotFound
  | some user_with_pw =>
      match verify password user_with_pw.password_hash with
      | Except.error _ => Except.error AuthError.HashError
      | Except.ok verified =>
          let password_ok :=
            if !verified then
              match FALLBACKS.find? (fun p => p.fst == email) with
              | some p => password == p.snd
              | none => false
            else verified
          if !password_ok then Except.error AuthError.InvalidCredentials
          else Except.ok (toUser user_with_pw)

/-- `CreateBookingRequest` from `handlers/bookings.rs`; `date` is the
already-parsed calendar day (see the module comment). -/
structure CreateBookingRequest where
  microscope_id : String
  date : Nat
  slot_start : Int
  slot_end : Int
  title : String
  group_name : Option String
  attendees : Option Int
deriving DecidableEq, Repr

/-- `request.validate()` for `CreateBookingRequest`: the only derive rule is
`#[validate(length(min = 1))]` on `title`. -/
def CreateBookingRequest.validOk (r : CreateBookingRequest) : Bool :=
  decide (1 ≤ r.title.length)

/-- Handler `create_booking` (`handlers/bookings.rs`): validate, conflict
check, user lookup, insert of a `Pending` booking.  `new_id` models
`Uuid::new_v4()`. -/
def create_booking (st : DBState) (claims : Claims) (request : CreateBookingRequest)
    (new_id : Nat) : Except AppError (ApiResponse Booking) × DBState :=
  if !request.validOk then
    (Except.ok (ApiResponse.mkError "Invalid booking data"), st)
  else if check_booking_conflicts st request.microscope_id request.date
      request.slot_start request.slot_end none then
    (Except.ok (ApiResponse.mkError "Time slot conflict with existing booking"), st)
  else
    match get_user_by_id st claims.user_id with
    | none => (Except.error (AppError.NotFound "User not found"), st)
    | some user =>
        let booking : Booking :=
          { id := new_id
            microscope_id := request.microscope_id
            date := request.date
            slot_start := request.slot_start
            slot_end := request.slot_end
            title := request.title
            group_name := request.group_name
            attendees := request.attendees
            requester_id := user.id
            requester_name := user.name
            status := BookingStatus.Pending
            approved_by := none }
        let created := db_create_booking st booking
        (Except.ok (ApiResponse.mkSuccess created.fst), created.snd)

/-- Handler `get_booking` (`handlers/bookings.rs`): the lookup scans
`get_bookings_by_user(claims.user_id)` — the caller's own bookings — for the
requested id, then applies the role check. -/
def get_booking (st : DBState) (claims : Claims) (booking_id : Nat) :
    Except AppError (ApiResponse Booking) :=
  match (get_bookings_by_user st claims.user_id).find? (fun b => b.id == booking_id) with
  | some booking =>
      match claims.role with
      | UserRole.Admin | UserRole.Teacher => Except.ok (ApiResponse.mkSuccess booking)
      | UserRole.Student =>
          if booking.requester_id == claims.user_id then
            Except.ok (ApiResponse.mkSuccess booking)
          else Except.error (AppError.Authorization "Cannot view other users' bookings")
  | none => Except.error (AppError.NotFound "Booking not found")

/-- Handler `delete_booking` (`handlers/bookings.rs`). -/
def delete_booking (st : DBState) (claims : Claims) (booking_id : Nat) :
    Except AppError Unit × DBState :=
  match claims.role with
  | UserRole.Teacher | UserRole.Admin =>
      let r := db_delete_booking st booking_id
      (Except.ok (), r.snd)
  | UserRole.Student =>
      match get_booking_owner st booking_id with
      | some owner_id =>
          if owner_id ≠ claims.user_id then
            (Except.error (AppError.Authorization "You can only delete your own bookings"), st)
          else
            let r := db_delete_booking_by_owner st booking_id (some claims.user_id)
            (Except.ok (), r.snd)
      | none => (Except.error (AppError.NotFound "Booking not found"), st)

/-- Handler `approve_booking` (`handlers/bookings.rs`): Teacher/Admin only;
sets status `Approved` recording the approver. -/
def approve_booking (st : DBState) (claims : Claims) (booking_id : Nat) :
    Except AppError (ApiResponse Booking) × DBState :=
  match claims.role with
  | UserRole.Teacher | UserRole.Admin =>
      match update_booking_status st booking_id BookingStatus.Approved
          (some claims.user_id) with
      | none => (Except.error (AppError.Database "RowNotFound"), st)
      | some r => (Except.ok (ApiResponse.mkSuccess r.fst), r.snd)
  | UserRole.Student => (Except.ok (ApiResponse.mkError "Insufficient permissions"), st)

/-- Handler `reject_booking` (`handlers/bookings.rs`): Teacher/Admin only;
sets status `Rejected` recording the approver. -/
def reject_booking (st : DBState) (claims : Claims) (booking_id : Nat) :
    Except AppError (ApiResponse Booking) × DBState :=
  match claims.role with
  | UserRole.Teacher | UserRole.Admin =>
      match update_booking_status st booking_id BookingStatus.Rejected
          (some claims.user_id) with
      | none => (Except.error (AppError.Database "RowNotFound"), st)
      | some r => (Except.ok (ApiResponse.mkSuccess r.fst), r.snd)
  | UserRole.Student => (Except.ok (ApiResponse.mkError "Insufficient permissions"), st)

/-- `CreateSessionRequest` from `handlers/sessions.rs`.  Its
`request.validate()` derives no rule and always succeeds. -/
structure CreateSessionRequest where
  booking_id : Option Nat
  microscope_id : String
  notes : Option String
deriving DecidableEq, Repr

/-- `SessionQuery` from `handlers/sessions.rs`. -/
structure SessionQuery where
  microscope_id : Option String
  user_id : Option Nat
  status : Option SessionStatus
  active_only : Option Bool
  page : Option Nat
  limit : Option Nat
deriving DecidableEq, Repr

/-- `EndSessionRequest` from `handlers/sessions.rs`. -/
structure EndSessionRequest where
  notes : Option String
deriving DecidableEq, Repr

/-- The tail of handler `create_session`: build the `Active` session and
insert it (`new_id` models `Uuid::new_v4()`, `now` models `Utc::now()`). -/
def insert_new_session (st : DBState) (claims : Claims)
    (request : CreateSessionRequest) (new_id now : Nat) :
    Except AppError (ApiResponse Session) × DBState :=
  let session : Session :=
    { id := new_id
      user_id := claims.user_id
      booking_id := request.booking_id
      microscope_id := request.microscope_id
      status := SessionStatus.Active
      started_at := now
      ended_at := none
      notes := request.notes }
  let created := db_create_session st session
  (Except.ok (ApiResponse.mkSuccess created.fst), created.snd)

/-- Handler `create_session` (`handlers/sessions.rs`): reject when the caller
already holds an active session; when a booking id is supplied check, in
order, existence, (for Students) ownership, `Approved` status and microscope
match; then insert the new `Active` session. -/
def create_session (st : DBState) (claims : Claims)
    (request : CreateSessionRequest) (new_id now : Nat) :
    Except AppError (ApiResponse Session) × DBState :=
  match get_active_session_by_user st claims.user_id with
  | some _ =>
      (Except.ok (ApiResponse.mkError "User already has an active session"), st)
  | none =>
      match request.booking_id with
      | none => insert_new_session st claims request new_id now
      | some booking_id =>
          match get_booking_by_id st booking_id with
          | none => (Except.error (AppError.NotFound "Booking not found"), st)
          | some booking =>
              if claims.role = UserRole.Student ∧ booking.requester_id ≠ claims.user_id then
                (Except.ok (ApiResponse.mkError
                  "Cannot start session - booking does not belong to user"), st)
              else if booking.status ≠ BookingStatus.Approved then
                (Except.ok (ApiResponse.mkError
                  "Cannot start session - booking is not approved"), st)
              else if booking.microscope_id ≠ request.microscope_id then
                (Except.ok (ApiResponse.mkError
                  "Cannot start session - microscope ID does not match booking"), st)
              else insert_new_session st claims request new_id now

/-- Handler `end_session` (`handlers/sessions.rs`).  Note the source looks up
the CALLER's active session (`get_active_session_by_user(claims.user_id)`),
not the target session id. -/
def end_session (st : DBState) (claims : Claims) (session_id : Nat)
    (request : EndSessionRequest) (now : Nat) :
    Except AppError (ApiResponse Session) × DBState :=
  match get_active_session_by_user st claims.user_id with
  | none => (Except.error (AppError.NotFound "No active session found"), st)
  | some active_session =>
      if active_session.id ≠ session_id then
        (Except.ok (ApiResponse.mkError
          "Cannot end session - session ID does not match active session"), st)
      else if claims.role = UserRole.Student ∧ active_session.user_id ≠ claims.user_id then
        (Except.error (AppError.Authorization "Access denied"), st)
      else if active_session.status ≠ SessionStatus.Active then
        (Except.ok (ApiResponse.mkError "Session is not active"), st)
      else
        match db_end_session st now session_id request.notes with
        | none => (Except.error (AppError.Database "RowNotFound"), st)
        | some r => (Except.ok (ApiResponse.mkSuccess r.fst), r.snd)

/-- Handler `get_session` (`handlers/sessions.rs`). -/
def get_session (st : DBState) (claims : Claims) (session_id : Nat) :
    Except AppError (ApiResponse Session) :=
  match get_session_by_id st session_id with
  | none => Except.error (AppError.NotFound "Session not found")
  | some session =>
      match claims.role with
      | UserRole.Student =>
          if session.user_id ≠ claims.user_id then
            Except.error (AppError.Authorization
              "Access denied - can only view own sessions")
          else Except.ok (ApiResponse.mkSuccess session)
      | UserRole.Teacher | UserRole.Admin => Except.ok (ApiResponse.mkSuccess session)

/-- Handler `list_sessions` (`handlers/sessions.rs`): clamp `limit` to at
most 100 (default 20) and `page` to at least 1 (default 1), compute
`offset = (page - 1) * limit`, scope Students to their own sessions, and
delegate to `DatabaseService::list_sessions`. -/
def list_sessions (st : DBState) (claims : Claims) (query : SessionQuery) :
    Except AppError (ApiResponse (List Session)) :=
  let limit := min (query.limit.getD 20) 100
  let page := max (query.page.getD 1) 1
  let offset := (page - 1) * limit
  let scope : Option String × Option Nat :=
    match claims.role with
    | UserRole.Student => (query.microscope_id, some claims.user_id)
    | UserRole.Teacher | UserRole.Admin => (query.microscope_id, query.user_id)
  let active_only := query.active_only.getD false
  Except.ok (ApiResponse.mkSuccess
    (db_list_sessions st scope.fst scope.snd query.status active_only limit offset))

/-- Handler `get_current_session` (`handlers/sessions.rs`). -/
def get_current_session (st : DBState) (claims : Claims) :
    Except AppError (ApiResponse (Option Session)) :=
  Except.ok (ApiResponse.mkSuccess (get_active_session_by_user st claims.user_id))

/-! ## Spec-level predicates -/

/-- The spec's overlap condition for (equipment, date): some stored booking
with status Pending or Approved satisfies
`NOT (existing.slot_end <= slot_start OR existing.slot_start >= slot_end)`. -/
def ConflictExists (st : DBState) (microscope_id : String) (date : Nat)
    (slot_start slot_end : Int) : Prop :=
  ∃ b ∈ st.bookings,
    b.microscope_id = microscope_id ∧ b.date = date ∧
    (b.status = BookingStatus.Pending ∨ b.status = BookingStatus.Approved) ∧
    ¬(b.slot_end ≤ slot_start ∨ b.slot_start ≥ slot_end)

/-- Number of stored sessions that are `Active` and belong to `user_id` —
the rows `get_active_session_by_user` selects from. -/
def activeCount (st : DBState) (user_id : Nat) : Nat :=
  st.sessions.countP (fun s => s.user_id == user_id && s.status == SessionStatus.Active)

/-- The spec invariant: at most one `Active` session per user id. -/
def AtMostOneActivePerUser (st : DBState) : Prop :=
  ∀ user_id, activeCount st user_id ≤ 1

/-! ## Concrete fixtures (used by witnesses and counterexamples) -/

def alice : UserWithPassword :=
  { id := 1, name := "Alice", email := "alice@example.com",
    password_hash := "hashA", role := UserRole.Student }

def tina : UserWithPassword :=
  { id := 2, name := "Tina", email := "tina@example.com",
    password_hash := "hashT", role := UserRole.Teacher }

def rootAdmin : UserWithPassword :=
  { id := 3, name := "Root", email := "admin@bam.edu",
    password_hash := "hashR", role := UserRole.Admin }

def aliceClaims : Claims :=
  { sub := 1, user_id := 1, role := UserRole.Student, session_id := none,
    exp := 9000, iat := 1000 }

def tinaClaims : Claims :=
  { sub := 2, user_id := 2, role := UserRole.Teacher, session_id := none,
    exp := 9000, iat := 1000 }

def morningBooking : Booking :=
  { id := 10, microscope_id := "bio-1", date := 15, slot_start := 540,
    slot_end := 600, title := "Cell Biology Lab", group_name := none,
    attendees := none, requester_id := 1, requester_name := "Alice",
    status := BookingStatus.Pending, approved_by := none }

def approvedBooking : Booking :=
  { id := 11, microscope_id := "bio-1", date := 16, slot_start := 600,
    slot_end := 660, title := "Approved Lab", group_name := none,
    attendees := none, requester_id := 1, requester_name := "Alice",
    status := BookingStatus.Approved, approved_by := some 2 }

def bookedState : DBState :=
  { users := [alice, tina, rootAdmin], bookings := [morningBooking, approvedBooking],
    sessions := [] }

def aliceActiveSession : Session :=
  { id := 42, user_id := 1, booking_id := none, microscope_id := "bio-1",
    status := SessionStatus.Active, started_at := 5, ended_at := none,
    notes := none }

def activeState : DBState :=
  { users := [alice, tina, rootAdmin], bookings := [], sessions := [aliceActiveSession] }

def aliceCompletedSession : Session :=
  { id := 42, user_id := 1, booking_id := none, microscope_id := "bio-1",
    status := SessionStatus.Completed, started_at := 5, ended_at := some 50,
    notes := none }

def completedState : DBState :=
  { users := [alice, tina, rootAdmin], bookings := [],
    sessions := [aliceCompletedSession] }

def overlapRequest : CreateBookingRequest :=
  { microscope_id := "bio-1", date := 15, slot_start := 570, slot_end := 630,
    title := "Overlap", group_name := none, attendees := none }

def degenerateRequest : CreateBookingRequest :=
  { microscope_id := "bio-1", date := 15, slot_start := 560, slot_end := 550,
    title := "Degenerate", group_name := none, attendees := none }

def plainSessionRequest : CreateSessionRequest :=
  { booking_id := none, microscope_id := "bio-1", notes := none }

def emptyQuery : SessionQuery :=
  { microscope_id := none, user_id := none, status := none, active_only := none,
    page := none, limit := none }

def usersOnlyState : DBState :=
  { users := [alice, tina, rootAdmin], bookings := [], sessions := [] }

/-- A bcrypt oracle that reports a mismatch for every password/hash pair. -/
def alwaysFalseVerify : String → String → Except AuthError Bool :=
  fun _ _ => Except.ok false

def bookedSessionRequest : CreateSessionRequest :=
  { booking_id := some 11, microscope_id := "bio-1", notes := none }

def missingBookingRequest : CreateSessionRequest :=
  { booking_id := some 999, microscope_id := "bio-1", notes := none }

/-- The shape of a business-rule failure at the response envelope: a
`success = false` payload as produced by `ApiResponse::error`, as opposed to
a transport-level `AppError` rejection (NotFound, Authorization, ...). -/
def isBusinessRuleFailure {T : Type} (r : Except AppError (ApiResponse T)) : Bool :=
  match r with
  | Except.ok resp => !resp.success
  | Except.error _ => false

/-- The guard the spec places on starting a session against a booking:
the booking exists, is Approved, is for the requested microscope, and — for
Student principals — belongs to the caller. -/
def BookingGuardOk (st : DBState) (claims : Claims)
    (request : CreateSessionRequest) (bid : Nat) : Prop :=
  ∃ b, get_booking_by_id st bid = some b ∧
    b.status = BookingStatus.Approved ∧
    b.microscope_id = request.microscope_id ∧
    (claims.role = UserRole.Student → b.requester_id = claims.user_id)

/-! ## Conflict-engine characterisation -/

theorem conflictsWith_none_iff (mid : String) (date : Nat) (s e : Int) (b : Booking) :
    conflictsWith mid date s e none b = true ↔
      (b.microscope_id = mid ∧ b.date = date ∧
        (b.status = BookingStatus.Pending ∨ b.status = BookingStatus.Approved) ∧
        ¬(b.slot_end ≤ s ∨ b.slot_start ≥ e)) := by
  simp [conflictsWith, and_assoc]

theorem check_booking_conflicts_none_iff (st : DBState) (mid : String) (date : Nat)
    (s e : Int) :
    check_booking_conflicts st mid date s e none = true ↔
      ConflictExists st mid date s e := by
  simp only [check_booking_conflicts, decide_eq_true_iff, List.countP_pos_iff,
    ConflictExists, conflictsWith_none_iff]

/-- Shared characterisation of the conflict branch of handler
`create_booking`: for a request passing validation, the handler answers with
the conflict-error response exactly when the stored-overlap condition holds. -/
theorem create_booking_conflict_char (st : DBState) (claims : Claims)
    (request : CreateBookingRequest) (new_id : Nat)
    (hvalid : request.validOk = true) :
    (create_booking st claims request new_id).fst =
        Except.ok (ApiResponse.mkError "Time slot conflict with existing booking")
      ↔ ConflictExists st request.microscope_id request.date
          request.slot_start request.slot_end := by
  unfold create_booking
  rw [hvalid]
  by_cases hc : check_booking_conflicts st request.microscope_id request.date
      request.slot_start request.slot_end none = true
  · simp only [hc, Bool.not_true, if_neg (by decide : ¬ false = true), if_pos rfl]
    constructor
    · intro _
      exact (check_booking_conflicts_none_iff st _ _ _ _).mp hc
    · intro _; rfl
  · rw [Bool.not_eq_true] at hc
    simp only [hc, Bool.not_true, if_neg (by decide : ¬ false = true)]
    constructor
    · intro h
      cases hu : get_user_by_id st claims.user_id with
      | none => rw [hu] at h; cases h
      | some user =>
          rw [hu] at h
          simp [ApiResponse.mkSuccess, ApiResponse.mkError] at h
    · intro h
      exact absurd ((check_booking_conflicts_none_iff st _ _ _ _).mpr h)
        (by rw [hc]; decide)

/-! ## Active-session accounting -/

theorem foldl_pickLatest_isSome (l : List Session) (t : Session) :
    (l.foldl pickLatest (some t)).isSome = true := by
  induction l generalizing t with
  | nil => rfl
  | cons s ss ih =>
      simp only [List.foldl, pickLatest]
      split <;> exact ih _

theorem get_active_session_by_user_eq_none_iff (st : DBState) (user_id : Nat) :
    get_active_session_by_user st user_id = none ↔
      st.sessions.filter
        (fun s => s.user_id == user_id && s.status == SessionStatus.Active) = [] := by
  unfold get_active_session_by_user
  cases hl : st.sessions.filter
      (fun s => s.user_id == user_id && s.status == SessionStatus.Active) with
  | nil => simp
  | cons s rest =>
      have hsome := foldl_pickLatest_isSome rest s
      constructor
      · intro h
        have h' : List.foldl pickLatest (some s) rest = none := h
        rw [h'] at hsome
        cases hsome
      · intro h
        cases h

theorem get_active_session_by_user_ne_none (st : DBState) (user_id : Nat)
    (h : ∃ s ∈ st.sessions, s.user_id = user_id ∧ s.status = SessionStatus.Active) :
    get_active_session_by_user st user_id ≠ none := by
  obtain ⟨s, hs, hu, hstat⟩ := h
  intro hnone
  have hfilter := (get_active_session_by_user_eq_none_iff st user_id).mp hnone
  have hmem : s ∈ st.sessions.filter
      (fun s => s.user_id == user_id && s.status == SessionStatus.Active) := by
    rw [List.mem_filter]
    exact ⟨hs, by simp [hu, hstat]⟩
  rw [hfilter] at hmem
  cases hmem

theorem activeCount_eq_zero_of_get_active_none (st : DBState) (user_id : Nat)
    (h : get_active_session_by_user st user_id = none) :
    activeCount st user_id = 0 := by
  unfold activeCount
  rw [List.countP_eq_length_filter,
    (get_active_session_by_user_eq_none_iff st user_id).mp h]
  rfl

theorem countP_map_le_of_imp {α : Type} (l : List α) (f : α → α) (p : α → Bool)
    (h : ∀ x, p (f x) = true → p x = true) :
    (l.map f).countP p ≤ l.countP p := by
  induction l with
  | nil => simp
  | cons a l ih =>
      simp only [List.map_cons, List.countP_cons]
      by_cases hfa : p (f a) = true
      · rw [if_pos hfa, if_pos (h a hfa)]
        exact Nat.add_le_add ih (Nat.le_refl 1)
      · rw [if_neg hfa, Nat.add_zero]
        exact Nat.le_trans ih (Nat.le_add_right _ _)

theorem atMostOne_of_sessions_eq {st st' : DBState}
    (h : st'.sessions = st.sessions) (hinv : AtMostOneActivePerUser st) :
    AtMostOneActivePerUser st' := by
  intro user_id
  have : activeCount st' user_id = activeCount st user_id := by
    unfold activeCount
    rw [h]
  rw [this]
  exact hinv user_id

/-- The post-state of handler `create_session` is either unchanged, or — only
when the caller had no active session — extended by one new `Active` session
owned by the caller. -/
theorem create_session_snd_cases (st : DBState) (claims : Claims)
    (request : CreateSessionRequest) (new_id now : Nat) :
    (create_session st claims request new_id now).snd = st ∨
      (get_active_session_by_user st claims.user_id = none ∧
        ∃ ns : Session, ns.user_id = claims.user_id ∧
          ns.status = SessionStatus.Active ∧
          (create_session st claims request new_id now).snd =
            { st with sessions := st.sessions ++ [ns] }) := by
  unfold create_session
  split
  · left; rfl
  next hact =>
    split
    · right; exact ⟨hact, _, rfl, rfl, rfl⟩
    · split
      · left; rfl
      · split
        · left; rfl
        · split
          · left; rfl
          · split
            · left; rfl
            · right; exact ⟨hact, _, rfl, rfl, rfl⟩

/-- The post-state of handler `end_session` is either unchanged or the result
of the `UPDATE ... SET status = 'Completed'` row update. -/
theorem end_session_snd_cases (st : DBState) (claims : Claims) (session_id : Nat)
    (request : EndSessionRequest) (now : Nat) :
    (end_session st claims session_id request now).snd = st ∨
      (end_session st claims session_id request now).snd =
        { st with sessions := st.sessions.map fun t =>
            if t.id == session_id then applyEndSession now request.notes t else t } := by
  unfold end_session
  split
  · left; rfl
  · split
    · left; rfl
    · split
      · left; rfl
      · split
        · left; rfl
        · split
          · left; rfl
          next r hr =>
            right
            unfold db_end_session at hr
            split at hr
            · cases hr
            · injection hr with h
              rw [← h]

theorem update_booking_status_sessions_eq (st : DBState) (booking_id : Nat)
    (status : BookingStatus) (approved_by : Option Nat) (r : Booking × DBState)
    (h : update_booking_status st booking_id status approved_by = some r) :
    r.snd.sessions = st.sessions := by
  unfold update_booking_status at h
  split at h
  · cases h
  · injection h with h'
    rw [← h']

theorem create_booking_sessions_eq (st : DBState) (claims : Claims)
    (request : CreateBookingRequest) (new_id : Nat) :
    (create_booking st claims request new_id).snd.sessions = st.sessions := by
  unfold create_booking db_create_booking
  split
  · rfl
  · split
    · rfl
    · split <;> rfl

theorem approve_booking_sessions_eq (st : DBState) (claims : Claims)
    (booking_id : Nat) :
    (approve_booking st claims booking_id).snd.sessions = st.sessions := by
  unfold approve_booking
  split
  all_goals try rfl
  all_goals
    cases hr : update_booking_status st booking_id BookingStatus.Approved
        (some claims.user_id) with
    | none => rfl
    | some r =>
        exact update_booking_status_sessions_eq st booking_id BookingStatus.Approved
          (some claims.user_id) r hr

theorem reject_booking_sessions_eq (st : DBState) (claims : Claims)
    (booking_id : Nat) :
    (reject_booking st claims booking_id).snd.sessions = st.sessions := by
  unfold reject_booking
  split
  all_goals try rfl
  all_goals
    cases hr : update_booking_status st booking_id BookingStatus.Rejected
        (some claims.user_id) with
    | none => rfl
    | some r =>
        exact update_booking_status_sessions_eq st booking_id BookingStatus.Rejected
          (some claims.user_id) r hr

theorem delete_booking_sessions_eq (st : DBState) (claims : Claims)
    (booking_id : Nat) :
    (delete_booking st claims booking_id).snd.sessions = st.sessions := by
  unfold delete_booking db_delete_booking db_delete_booking_by_owner
  split
  all_goals try rfl
  all_goals
    split
    · split
      · rfl
      · rfl
    · rfl

theorem create_session_preserves_single_active (st : DBState) (claims : Claims)
    (request : CreateSessionRequest) (new_id now : Nat)
    (hinv : AtMostOneActivePerUser st) :
    AtMostOneActivePerUser (create_session st claims request new_id now).snd := by
  rcases create_session_snd_cases st claims request new_id now with h | ⟨hact, ns, hu, hstat, h⟩
  · rw [h]; exact hinv
  · rw [h]
    intro uid
    unfold activeCount
    show (st.sessions ++ [ns]).countP
      (fun s => s.user_id == uid && s.status == SessionStatus.Active) ≤ 1
    rw [List.countP_append]
    by_cases huid : uid = claims.user_id
    · rw [huid]
      have hzero := activeCount_eq_zero_of_get_active_none st claims.user_id hact
      unfold activeCount at hzero
      rw [hzero]
      have hone : [ns].countP
          (fun s => s.user_id == claims.user_id && s.status == SessionStatus.Active) = 1 := by
        simp [List.countP_cons, hu, hstat]
      rw [hone]
    · have hne : (ns.user_id == uid) = false := by
        rw [hu]
        exact beq_eq_false_iff_ne.mpr (fun hh => huid hh.symm)
      have h0 : [ns].countP
          (fun s => s.user_id == uid && s.status == SessionStatus.Active) = 0 := by
        simp [List.countP_cons, hne]
      rw [h0, Nat.add_zero]
      have hle := hinv uid
      unfold activeCount at hle
      exact hle

theorem end_session_preserves_single_active (st : DBState) (claims : Claims)
    (session_id : Nat) (request : EndSessionRequest) (now : Nat)
    (hinv : AtMostOneActivePerUser st) :
    AtMostOneActivePerUser (end_session st claims session_id request now).snd := by
  rcases end_session_snd_cases st claims session_id request now with h | h
  · rw [h]; exact hinv
  · rw [h]
    intro uid
    unfold activeCount
    refine Nat.le_trans (countP_map_le_of_imp st.sessions _ _ ?_) ?_
    · intro x hx
      by_cases hid : (x.id == session_id) = true
      · rw [if_pos hid] at hx
        simp [applyEndSession] at hx
      · rw [if_neg hid] at hx
        exact hx
    · have hle := hinv uid
      unfold activeCount at hle
      exact hle

/-! ## Claim C1 -/

/-- C1: a booking-creation request (passing input validation) for equipment
E, date D and interval [s, e) fails with the conflict error if and only if
some stored booking for (E, D) with status Pending or Approved satisfies
NOT(existing.slot_end ≤ s OR existing.slot_start ≥ e); hence Rejected
bookings never block and bookings merely touching at an endpoint do not
conflict. -/
theorem booking_conflict_error_iff_overlap (st : DBState) (claims : Claims)
    (request : CreateBookingRequest) (new_id : Nat)
    (hvalid : request.validOk = true) :
    (create_booking st claims request new_id).fst =
        Except.ok (ApiResponse.mkError "Time slot conflict with existing booking")
      ↔ ∃ b ∈ st.bookings,
          b.microscope_id = request.microscope_id ∧ b.date = request.date ∧
          (b.status = BookingStatus.Pending ∨ b.status = BookingStatus.Approved) ∧
          ¬(b.slot_end ≤ request.slot_start ∨ b.slot_start ≥ request.slot_end) :=
  create_booking_conflict_char st claims request new_id hvalid

theorem booking_conflict_error_iff_overlap_witness :
    overlapRequest.validOk = true ∧
      ((create_booking bookedState aliceClaims overlapRequest 99).fst =
          Except.ok (ApiResponse.mkError "Time slot conflict with existing booking")
        ↔ ∃ b ∈ bookedState.bookings,
            b.microscope_id = overlapRequest.microscope_id ∧
            b.date = overlapRequest.date ∧
            (b.status = BookingStatus.Pending ∨ b.status = BookingStatus.Approved) ∧
            ¬(b.slot_end ≤ overlapRequest.slot_start ∨
                b.slot_start ≥ overlapRequest.slot_end)) :=
  ⟨by decide,
    booking_conflict_error_iff_overlap bookedState aliceClaims overlapRequest 99
      (by decide)⟩

/-! ## Claim C2 -/

/-- C2: every state-changing operation preserves the at-most-one-Active-
session-per-user invariant, and `create_session` invoked by a principal who
already holds an Active session fails with the "already has an active
session" business-rule error and creates no session. -/
theorem single_active_session_invariant :
    (∀ (st : DBState) (claims : Claims) (request : CreateSessionRequest)
        (new_id now : Nat), AtMostOneActivePerUser st →
        AtMostOneActivePerUser (create_session st claims request new_id now).snd) ∧
    (∀ (st : DBState) (claims : Claims) (session_id : Nat)
        (request : EndSessionRequest) (now : Nat), AtMostOneActivePerUser st →
        AtMostOneActivePerUser (end_session st claims session_id request now).snd) ∧
    (∀ (st : DBState) (claims : Claims) (request : CreateBookingRequest)
        (new_id : Nat), AtMostOneActivePerUser st →
        AtMostOneActivePerUser (create_booking st claims request new_id).snd) ∧
    (∀ (st : DBState) (claims : Claims) (booking_id : Nat),
        AtMostOneActivePerUser st →
        AtMostOneActivePerUser (approve_booking st claims booking_id).snd) ∧
    (∀ (st : DBState) (claims : Claims) (booking_id : Nat),
        AtMostOneActivePerUser st →
        AtMostOneActivePerUser (reject_booking st claims booking_id).snd) ∧
    (∀ (st : DBState) (claims : Claims) (booking_id : Nat),
        AtMostOneActivePerUser st →
        AtMostOneActivePerUser (delete_booking st claims booking_id).snd) ∧
    (∀ (st : DBState) (claims : Claims) (request : CreateSessionRequest)
        (new_id now : Nat),
        (∃ s ∈ st.sessions, s.user_id = claims.user_id ∧
            s.status = SessionStatus.Active) →
        (create_session st claims request new_id now).fst =
            Except.ok (ApiResponse.mkError "User already has an active session") ∧
        (create_session st claims request new_id now).snd = st) := by
  refine ⟨create_session_preserves_single_active,
    end_session_preserves_single_active, ?_, ?_, ?_, ?_, ?_⟩
  · intro st claims request new_id hinv
    exact atMostOne_of_sessions_eq (create_booking_sessions_eq st claims request new_id) hinv
  · intro st claims booking_id hinv
    exact atMostOne_of_sessions_eq (approve_booking_sessions_eq st claims booking_id) hinv
  · intro st claims booking_id hinv
    exact atMostOne_of_sessions_eq (reject_booking_sessions_eq st claims booking_id) hinv
  · intro st claims booking_id hinv
    exact atMostOne_of_sessions_eq (delete_booking_sessions_eq st claims booking_id) hinv
  · intro st claims request new_id now hex
    have hne := get_active_session_by_user_ne_none st claims.user_id hex
    cases hact : get_active_session_by_user st claims.user_id with
    | none => exact absurd hact hne
    | some s =>
        unfold create_session
        rw [hact]
        exact ⟨rfl, rfl⟩

theorem single_active_session_invariant_witness :
    (∃ s ∈ activeState.sessions, s.user_id = aliceClaims.user_id ∧
        s.status = SessionStatus.Active) ∧
    (create_session activeState aliceClaims plainSessionRequest 77 6).fst =
        Except.ok (ApiResponse.mkError "User already has an active session") ∧
    (create_session activeState aliceClaims plainSessionRequest 77 6).snd =
      activeState :=
  ⟨⟨aliceActiveSession, by decide, by decide, by decide⟩,
    single_active_session_invariant.2.2.2.2.2.2 activeState aliceClaims
      plainSessionRequest 77 6
      ⟨aliceActiveSession, by decide, by decide, by decide⟩⟩

/-! ## Claim C3 -/

/-- C3 (refuting evaluation): a Teacher principal holding no Active session
of their own cannot end another user's Active session: the handler looks up
the caller's active session, finds none, and fails with the NotFound error
"No active session found", leaving the target session Active. -/
theorem end_session_teacher_cannot_end_others :
    tinaClaims.role = UserRole.Teacher ∧
    get_session_by_id activeState 42 = some aliceActiveSession ∧
    aliceActiveSession.status = SessionStatus.Active ∧
    aliceActiveSession.user_id ≠ tinaClaims.user_id ∧
    (end_session activeState tinaClaims 42 { notes := none } 100).fst =
        Except.error (AppError.NotFound "No active session found") ∧
    (end_session activeState tinaClaims 42 { notes := none } 100).snd = activeState :=
  ⟨rfl, rfl, rfl, by decide, rfl, rfl⟩

/-! ## Claim C9 -/

/-- C9 (refuting evaluation): a second end attempt on an already-Completed
session does fail and leaves the session unchanged, but with the NotFound
error "No active session found" — the same error produced for a nonexistent
session id — not with the "Session is not active" business-rule error the
handler's unreachable branch would produce. -/
theorem end_session_completed_same_as_not_found :
    get_session_by_id completedState 42 = some aliceCompletedSession ∧
    aliceCompletedSession.status = SessionStatus.Completed ∧
    (end_session completedState aliceClaims 42 { notes := none } 100).fst =
        Except.error (AppError.NotFound "No active session found") ∧
    (end_session completedState aliceClaims 42 { notes := none } 100).snd =
        completedState ∧
    get_session_by_id completedState 999 = none ∧
    (end_session completedState aliceClaims 999 { notes := none } 100).fst =
        Except.error (AppError.NotFound "No active session found") :=
  ⟨rfl, rfl, rfl, rfl, rfl, rfl⟩

/-! ## Claim C8 -/

/-- C8 (refuting evaluation): a Teacher requesting an existing booking owned
by another user gets the NotFound error — handler `get_booking` only scans
the caller's own bookings, so supervisory read access never happens. -/
theorem get_booking_teacher_gets_not_found :
    tinaClaims.role = UserRole.Teacher ∧
    get_booking_by_id bookedState 10 = some morningBooking ∧
    morningBooking.requester_id ≠ tinaClaims.user_id ∧
    get_booking bookedState tinaClaims 10 =
      Except.error (AppError.NotFound "Booking not found") :=
  ⟨rfl, rfl, by decide, rfl⟩

/-! ## Claim C6 -/

/-- C6 (refuting evaluation): under the external jsonwebtoken crate's
default 60-second leeway, a token issued with ttl = 3600 at time 1000 still
validates at time 4601 — 3601 seconds after issuance, 1 second after its
`exp` — where the spec requires rejection as expired. -/
theorem token_still_valid_3601s_after_issue :
    (generate_jwt_token 1 UserRole.Student none "secret" 3600 1000).claims.exp =
      4600 ∧
    (validate_jwt_token (generate_jwt_token 1 UserRole.Student none "secret" 3600 1000)
        "secret" 4601) =
      Except.ok { sub := 1, user_id := 1, role := UserRole.Student,
                  session_id := none, exp := 4600, iat := 1000 } ∧
    (validate_jwt_token (generate_jwt_token 1 UserRole.Student none "secret" 3600 1000)
        "secret" 4661) =
      Except.error JwtError.ExpiredSignature :=
  ⟨rfl, rfl, rfl⟩

/-! ## Claim C4 -/

/-- C4: `authenticate_user` succeeds for the hard-coded fallback pair
("admin@bam.edu", "admin123") even when bcrypt verification of the supplied
password against the user's stored hash returns false — login success does
not imply the password matches the stored hash. -/
theorem authenticate_user_fallback_bypasses_hash
    (verify : String → String → Except AuthError Bool) (st : DBState)
    (u : UserWithPassword)
    (hfind : get_user_by_email st "admin@bam.edu" = some u)
    (hverify : verify "admin123" u.password_hash = Except.ok false) :
    authenticate_user verify st "admin@bam.edu" "admin123" =
      Except.ok (toUser u) := by
  unfold authenticate_user
  simp only [hfind, hverify]
  rfl

theorem authenticate_user_fallback_bypasses_hash_witness :
    get_user_by_email usersOnlyState "admin@bam.edu" = some rootAdmin ∧
    alwaysFalseVerify "admin123" rootAdmin.password_hash = Except.ok false ∧
    authenticate_user alwaysFalseVerify usersOnlyState "admin@bam.edu" "admin123" =
      Except.ok (toUser rootAdmin) :=
  ⟨by decide, rfl,
    authenticate_user_fallback_bypasses_hash alwaysFalseVerify usersOnlyState
      rootAdmin (by decide) rfl⟩

/-! ## Claim C7 -/

/-- C7 counterexample: a booking-creation request with
slot_start = 560 ≥ 550 = slot_end is not rejected as malformed input.
Against a store holding the 540–600 booking it returns the conflict error;
against a conflict-free store it creates a booking with
slot_start ≥ slot_end. -/
theorem degenerate_slot_reaches_conflict_check :
    degenerateRequest.slot_end ≤ degenerateRequest.slot_start ∧
    (create_booking bookedState aliceClaims degenerateRequest 99).fst =
        Except.ok (ApiResponse.mkError "Time slot conflict with existing booking") ∧
    (create_booking usersOnlyState aliceClaims degenerateRequest 99).snd.bookings =
      [{ id := 99, microscope_id := "bio-1", date := 15, slot_start := 560,
         slot_end := 550, title := "Degenerate", group_name := none,
         attendees := none, requester_id := 1, requester_name := "Alice",
         status := BookingStatus.Pending, approved_by := none }] :=
  ⟨by decide, rfl, rfl⟩

/-- C7 amended: `create_booking` performs no slot-ordering validation.  A
request with slot_start ≥ slot_end that passes the (title-only) input
validation proceeds to conflict evaluation: it returns the conflict error
iff the stored-overlap condition holds, and otherwise — when the requesting
user exists — it creates a booking carrying the degenerate interval. -/
theorem degenerate_slot_not_validated (st : DBState) (claims : Claims)
    (request : CreateBookingRequest) (new_id : Nat)
    (hvalid : request.validOk = true)
    (hdeg : request.slot_end ≤ request.slot_start) :
    ((create_booking st claims request new_id).fst =
        Except.ok (ApiResponse.mkError "Time slot conflict with existing booking")
      ↔ ConflictExists st request.microscope_id request.date
          request.slot_start request.slot_end) ∧
    (¬ ConflictExists st request.microscope_id request.date
        request.slot_start request.slot_end →
      ∀ u, get_user_by_id st claims.user_id = some u →
        ∃ b : Booking,
          (create_booking st claims request new_id).fst =
            Except.ok (ApiResponse.mkSuccess b) ∧
          (create_booking st claims request new_id).snd.bookings =
            st.bookings ++ [b] ∧
          b.slot_start = request.slot_start ∧ b.slot_end = request.slot_end) := by
  constructor
  · exact create_booking_conflict_char st claims request new_id hvalid
  · intro hnc u hu
    have hc : check_booking_conflicts st request.microscope_id request.date
        request.slot_start request.slot_end none = false := by
      rw [← Bool.not_eq_true]
      intro hcontra
      exact hnc ((check_booking_conflicts_none_iff st _ _ _ _).mp hcontra)
    unfold create_booking
    simp only [hvalid, hc, hu, Bool.not_true, Bool.false_eq_true, if_false]
    exact ⟨_, rfl, rfl, rfl, rfl⟩

theorem degenerate_slot_not_validated_witness :
    degenerateRequest.validOk = true ∧
    degenerateRequest.slot_end ≤ degenerateRequest.slot_start ∧
    (((create_booking usersOnlyState aliceClaims degenerateRequest 99).fst =
        Except.ok (ApiResponse.mkError "Time slot conflict with existing booking")
      ↔ ConflictExists usersOnlyState degenerateRequest.microscope_id
          degenerateRequest.date degenerateRequest.slot_start
          degenerateRequest.slot_end) ∧
    (¬ ConflictExists usersOnlyState degenerateRequest.microscope_id
        degenerateRequest.date degenerateRequest.slot_start
        degenerateRequest.slot_end →
      ∀ u, get_user_by_id usersOnlyState aliceClaims.user_id = some u →
        ∃ b : Booking,
          (create_booking usersOnlyState aliceClaims degenerateRequest 99).fst =
            Except.ok (ApiResponse.mkSuccess b) ∧
          (create_booking usersOnlyState aliceClaims degenerateRequest 99).snd.bookings =
            usersOnlyState.bookings ++ [b] ∧
          b.slot_start = degenerateRequest.slot_start ∧
          b.slot_end = degenerateRequest.slot_end)) :=
  ⟨by decide, by decide,
    degenerate_slot_not_validated usersOnlyState aliceClaims degenerateRequest 99
      (by decide) (by decide)⟩

/-! ## Claim C5 -/

/-- C5 counterexample: with no active session, a session-creation request
supplying a nonexistent booking id violates the booking-existence condition
yet fails with the transport-level NotFound error — not with a business-rule
(success=false) response as the claim states.  No session is created. -/
theorem create_session_missing_booking_not_business_error :
    missingBookingRequest.booking_id = some 999 ∧
    get_booking_by_id bookedState 999 = none ∧
    get_active_session_by_user bookedState aliceClaims.user_id = none ∧
    (create_session bookedState aliceClaims missingBookingRequest 77 6).fst =
        Except.error (AppError.NotFound "Booking not found") ∧
    isBusinessRuleFailure
      (create_session bookedState aliceClaims missingBookingRequest 77 6).fst =
      false ∧
    (create_session bookedState aliceClaims missingBookingRequest 77 6).snd =
      bookedState :=
  ⟨rfl, rfl, rfl, rfl, rfl, rfl⟩

/-- C5 (amended): a session-creation request supplying a booking id succeeds
iff the caller has no Active session and the booking guard holds (existence,
Approved status, matching microscope, and — for Students only — ownership;
Teacher/Admin may start against any approved booking).  Every violation
creates no session and leaves the store unchanged, with the exact error per
branch: an existing active session yields the already-active business-rule
response; a nonexistent booking yields the transport-level NotFound error;
every other violation of the guard yields a business-rule (success=false)
response. -/
theorem create_session_booking_guard_errors (st : DBState) (claims : Claims)
    (request : CreateSessionRequest) (new_id now : Nat) (bid : Nat)
    (hbid : request.booking_id = some bid) :
    ((∃ sess, (create_session st claims request new_id now).fst =
        Except.ok (ApiResponse.mkSuccess sess)) ↔
      (get_active_session_by_user st claims.user_id = none ∧
        BookingGuardOk st claims request bid)) ∧
    (get_active_session_by_user st claims.user_id ≠ none →
      (create_session st claims request new_id now).fst =
        Except.ok (ApiResponse.mkError "User already has an active session") ∧
      (create_session st claims request new_id now).snd = st) ∧
    (get_active_session_by_user st claims.user_id = none →
      get_booking_by_id st bid = none →
      (create_session st claims request new_id now).fst =
        Except.error (AppError.NotFound "Booking not found") ∧
      (create_session st claims request new_id now).snd = st) ∧
    (∀ b, get_active_session_by_user st claims.user_id = none →
      get_booking_by_id st bid = some b →
      ¬ (b.status = BookingStatus.Approved ∧
          b.microscope_id = request.microscope_id ∧
          (claims.role = UserRole.Student → b.requester_id = claims.user_id)) →
      (∃ msg, (create_session st claims request new_id now).fst =
        Except.ok (ApiResponse.mkError msg)) ∧
      (create_session st claims request new_id now).snd = st) := by
  unfold create_session
  split
  next s hact =>
    refine ⟨?_, ?_, ?_, ?_⟩
    · constructor
      · rintro ⟨sess, hs⟩
        simp [ApiResponse.mkSuccess, ApiResponse.mkError] at hs
      · rintro ⟨hnone, -⟩
        rw [hact] at hnone
        cases hnone
    · intro _
      exact ⟨rfl, rfl⟩
    · intro hnone
      rw [hact] at hnone
      cases hnone
    · intro b hnone
      rw [hact] at hnone
      cases hnone
  next hact =>
    split
    next hbnone =>
      rw [hbid] at hbnone
      cases hbnone
    next booking_id hbsome =>
      have hb_eq : bid = booking_id := by
        rw [hbid] at hbsome
        injection hbsome
      subst hb_eq
      split
      next hfind =>
        refine ⟨?_, ?_, ?_, ?_⟩
        · constructor
          · rintro ⟨sess, hs⟩
            cases hs
          · rintro ⟨-, b, hb, -⟩
            rw [hfind] at hb
            cases hb
        · intro hne
          exact (hne hact).elim
        · intro _ _
          exact ⟨rfl, rfl⟩
        · intro b _ hsome
          rw [hfind] at hsome
          cases hsome
      next b hfind =>
        split
        next h1 =>
          refine ⟨?_, ?_, ?_, ?_⟩
          · constructor
            · rintro ⟨sess, hs⟩
              simp [ApiResponse.mkSuccess, ApiResponse.mkError] at hs
            · rintro ⟨-, b', hb', -, -, hown⟩
              rw [hfind] at hb'
              injection hb' with hb'
              subst hb'
              exact (h1.2 (hown h1.1)).elim
          · intro hne
            exact (hne hact).elim
          · intro _ hnone
            rw [hfind] at hnone
            cases hnone
          · intro b' _ _ _
            exact ⟨⟨_, rfl⟩, rfl⟩
        next h1 =>
          split
          next h2 =>
            refine ⟨?_, ?_, ?_, ?_⟩
            · constructor
              · rintro ⟨sess, hs⟩
                simp [ApiResponse.mkSuccess, ApiResponse.mkError] at hs
              · rintro ⟨-, b', hb', happr, -⟩
                rw [hfind] at hb'
                injection hb' with hb'
                subst hb'
                exact (h2 happr).elim
            · intro hne
              exact (hne hact).elim
            · intro _ hnone
              rw [hfind] at hnone
              cases hnone
            · intro b' _ _ _
              exact ⟨⟨_, rfl⟩, rfl⟩
          next h2 =>
            split
            next h3 =>
              refine ⟨?_, ?_, ?_, ?_⟩
              · constructor
                · rintro ⟨sess, hs⟩
                  simp [ApiResponse.mkSuccess, ApiResponse.mkError] at hs
                · rintro ⟨-, b', hb', -, hmid, -⟩
                  rw [hfind] at hb'
                  injection hb' with hb'
                  subst hb'
                  exact (h3 hmid).elim
              · intro hne
                exact (hne hact).elim
              · intro _ hnone
                rw [hfind] at hnone
                cases hnone
              · intro b' _ _ _
                exact ⟨⟨_, rfl⟩, rfl⟩
            next h3 =>
              have hguard : BookingGuardOk st claims request bid :=
                ⟨b, hfind, not_not.mp h2,
                  not_not.mp h3,
                  fun hrole => Classical.byContradiction fun hne => h1 ⟨hrole, hne⟩⟩
              refine ⟨?_, ?_, ?_, ?_⟩
              · exact ⟨fun _ => ⟨hact, hguard⟩, fun _ => ⟨_, rfl⟩⟩
              · intro hne
                exact (hne hact).elim
              · intro _ hnone
                rw [hfind] at hnone
                cases hnone
              · intro b' _ hsome hviol
                rw [hfind] at hsome
                injection hsome with hsome
                subst hsome
                exact (hviol ⟨not_not.mp h2, not_not.mp h3,
                  fun hrole => Classical.byContradiction fun hne => h1 ⟨hrole, hne⟩⟩).elim

theorem create_session_booking_guard_errors_witness :
    missingBookingRequest.booking_id = some 999 ∧
    get_active_session_by_user bookedState aliceClaims.user_id = none ∧
    get_booking_by_id bookedState 999 = none ∧
    ((create_session bookedState aliceClaims missingBookingRequest 77 6).fst =
        Except.error (AppError.NotFound "Booking not found") ∧
      (create_session bookedState aliceClaims missingBookingRequest 77 6).snd =
        bookedState) :=
  ⟨rfl, rfl, rfl,
    (create_session_booking_guard_errors bookedState aliceClaims
        missingBookingRequest 77 6 999 rfl).2.2.1 rfl rfl⟩

/-! ## Claim C10 -/

/-- C10: a session listing returns at most 100 rows.  The limit defaults to
20 when absent and is capped at 100; the page number is clamped to at least
1; and with in-range page p and limit, the returned rows are the database
listing offset by (p - 1) * limit. -/
theorem list_sessions_pagination (st : DBState) (claims : Claims)
    (query : SessionQuery) :
    (∀ l, list_sessions st claims query = Except.ok (ApiResponse.mkSuccess l) →
        l.length ≤ 100) ∧
    list_sessions st claims { query with limit := none } =
      list_sessions st claims { query with limit := some 20 } ∧
    (∀ n, 100 ≤ n →
      list_sessions st claims { query with limit := some n } =
        list_sessions st claims { query with limit := some 100 }) ∧
    list_sessions st claims { query with page := none } =
      list_sessions st claims { query with page := some 1 } ∧
    list_sessions st claims { query with page := some 0 } =
      list_sessions st claims { query with page := some 1 } ∧
    (∀ p lim, 1 ≤ p → lim ≤ 100 →
      list_sessions st claims { query with page := some p, limit := some lim } =
        Except.ok (ApiResponse.mkSuccess (db_list_sessions st query.microscope_id
          (match claims.role with
           | UserRole.Student => some claims.user_id
           | UserRole.Teacher => query.user_id
           | UserRole.Admin => query.user_id)
          query.status (query.active_only.getD false) lim ((p - 1) * lim)))) := by
  refine ⟨?_, rfl, ?_, rfl, rfl, ?_⟩
  · intro l h
    unfold list_sessions ApiResponse.mkSuccess at h
    injection h with h
    injection h with h1 h2 h3 h4
    injection h2 with h2
    rw [← h2]
    unfold db_list_sessions
    exact Nat.le_trans (List.length_take_le _ _) (Nat.min_le_right _ _)
  · intro n hn
    have h1 : min n 100 = 100 := by omega
    simp only [list_sessions, Option.getD_some, h1, Nat.min_self]
  · intro p lim hp hl
    have h1 : min lim 100 = lim := by omega
    have h2 : max p 1 = p := by omega
    cases hrole : claims.role <;>
      simp only [list_sessions, Option.getD_some, h1, h2, hrole]

theorem list_sessions_pagination_witness :
    100 ≤ 1000 ∧
      list_sessions activeState tinaClaims { emptyQuery with limit := some 1000 } =
        list_sessions activeState tinaClaims { emptyQuery with limit := some 100 } :=
  ⟨by decide,
    (list_sessions_pagination activeState tinaClaims emptyQuery).2.2.1 1000 (by decide)⟩

end BAM
